import Mathlib

/-!
Verification of the factorial API repository: a pure factorial routine
(`app/factorial_utils.py`) and a single HTTP endpoint `POST /factorial`
(`app/main.py`) that validates a JSON payload, re-checks bounds, computes
the factorial and serializes it as a decimal string.
-/

namespace FactorialApi

/-- Python `range(a, b)`: the integers `a, a+1, ..., b-1` (empty when `b ≤ a`). -/
def pyRange (a b : Int) : List Int :=
  (List.range (b - a).toNat).map (fun (i : Nat) => a + (i : Int))

/-- `app/factorial_utils.py`, `factorial`: raises `ValueError` for `n < 0`
(modelled as `Except.error` carrying the exception message), returns `1`
for `n < 2`, and otherwise `math.prod(range(2, n + 1))`. -/
def factorial (n : Int) : Except String Int :=
  if n < 0 then
    Except.error "Factorial is not available for negative numbers."
  else if n < 2 then
    Except.ok 1
  else
    Except.ok (pyRange 2 (n + 1)).prod

/-- `MAX_N` from `app/main.py`. -/
def MAX_N : Int := 2000

/-- A JSON value supplied for the `number` field: either an integer or
some non-integer value (whose precise shape the validation never inspects
beyond rejecting it). -/
inductive JsonValue
  | int (n : Int)
  | nonInt
deriving DecidableEq

/-- An inbound request body for `POST /factorial`: the `number` field is
present with some JSON value, or absent. -/
structure Payload where
  number : Option JsonValue
deriving DecidableEq

/-- One structured validation error as enumerated by the schema-validation
library: a location path and a message. -/
structure FieldError where
  loc : List String
  msg : String
deriving DecidableEq

/-- Schema validation of the payload against `FactorialIn` in
`app/main.py`: `number` is a required integer with `ge=0, le=MAX_N`.
Produces the validated integer or the list of structured errors. -/
def validate (p : Payload) : Except (List FieldError) Int :=
  match p.number with
  | none => Except.error [⟨["body", "number"], "Field required"⟩]
  | some JsonValue.nonInt =>
      Except.error [⟨["body", "number"], "Input should be a valid integer"⟩]
  | some (JsonValue.int n) =>
      if n < 0 then
        Except.error [⟨["body", "number"], "Input should be greater than or equal to 0"⟩]
      else if n > MAX_N then
        Except.error [⟨["body", "number"], "Input should be less than or equal to " ++ toString MAX_N⟩]
      else
        Except.ok n

/-- One rendered validation error, as formatted by
`validation_exception_handler` in `app/main.py`: the location joined with
`" -> "`, a colon, and the message. -/
def renderFieldError (e : FieldError) : String :=
  String.intercalate " -> " e.loc ++ ": " ++ e.msg

/-- The `detail` string built by `validation_exception_handler`: each
error rendered and joined with `"; "`, with a fallback for an empty list. -/
def renderDetail (errs : List FieldError) : String :=
  if errs.isEmpty then "Invalid request body."
  else String.intercalate "; " (errs.map renderFieldError)

/-- The JSON body of a response from the endpoint. -/
inductive Body
  | ok (input : Int) (result : String)
  | err (error : String) (detail : String)
  | httpErr (detail : String)
  | internalError
deriving DecidableEq

/-- An HTTP response: status code and JSON body. -/
structure Response where
  status : Nat
  body : Body
deriving DecidableEq

/-- Whether a body came from the handler raising `HTTPException`. -/
def Body.isHttpErr : Body → Bool
  | Body.httpErr _ => true
  | _ => false

/-- The route function `compute_factorial` in `app/main.py`, applied to a
validated `number`. The second component records the argument passed to
`factorial`, `none` when `factorial` was never invoked. An uncaught
exception from `factorial` would surface as a 500 response. -/
def compute_factorial (n : Int) : Response × Option Int :=
  if n < 0 ∨ n > MAX_N then
    (⟨422, Body.httpErr ("Number must be between 0 and " ++ toString MAX_N ++ ".")⟩, none)
  else
    match factorial n with
    | Except.ok v => (⟨200, Body.ok n (toString v)⟩, some n)
    | Except.error _ => (⟨500, Body.internalError⟩, some n)

/-- Full processing of one `POST /factorial` request: schema validation
(its failure handled by `validation_exception_handler`), then the route
function. The second component records the argument passed to `factorial`,
`none` when `factorial` was never invoked. -/
def handle_request (p : Payload) : Response × Option Int :=
  match validate p with
  | Except.error errs => (⟨422, Body.err "ValidationError" (renderDetail errs)⟩, none)
  | Except.ok n => compute_factorial n

/-- A server processing a sequence of requests: each handled
independently, with no state carried between requests. -/
def serve (ps : List Payload) : List Response :=
  ps.map (fun p => (handle_request p).1)

/-- Product of `2, 3, ..., m+1` equals `(m+1)!`. -/
theorem prod_range_two_shift (m : Nat) :
    ((List.range m).map (fun i : Nat => (2 : Int) + (i : Int))).prod
      = ((Nat.factorial (m + 1) : Nat) : Int) := by
  induction m with
  | zero => simp [Nat.factorial]
  | succ k ih =>
      rw [List.range_succ, List.map_append, List.prod_append, ih]
      simp [Nat.factorial_succ]
      ring

/-- For `0 ≤ n`, `factorial` succeeds with the mathematical factorial. -/
theorem factorial_eq_ok (n : Int) (h : 0 ≤ n) :
    factorial n = Except.ok ((Nat.factorial n.toNat : Nat) : Int) := by
  unfold factorial
  rcases lt_or_le n 2 with h2 | h2
  · have : n = 0 ∨ n = 1 := by omega
    rcases this with rfl | rfl <;> simp [Nat.factorial]
  · have hn : ¬ n < 0 := by omega
    have hn2 : ¬ n < 2 := by omega
    simp only [hn, hn2, if_false]
    unfold pyRange
    have hm : (n + 1 - 2).toNat = (n.toNat - 1) := by omega
    have hsub : n.toNat - 1 + 1 = n.toNat := by omega
    have := prod_range_two_shift (n.toNat - 1)
    rw [hsub] at this
    rw [hm]
    exact congrArg Except.ok this

/-- On a payload carrying an in-range integer, `validate` succeeds and the
handler returns 200 with the stringified factorial, having invoked
`factorial` on that integer. -/
theorem handle_request_int_ok (n : Int) (h0 : 0 ≤ n) (h1 : n ≤ MAX_N) :
    handle_request ⟨some (JsonValue.int n)⟩
      = (⟨200, Body.ok n (toString ((Nat.factorial n.toNat : Nat) : Int))⟩, some n) := by
  have hneg : ¬ n < 0 := by omega
  have hgt : ¬ n > MAX_N := by omega
  have hok := factorial_eq_ok n h0
  simp [handle_request, validate, compute_factorial, hneg, hgt, hok]

/-- Claim C1: for every integer n with 0 ≤ n ≤ 2000, `factorial n` equals
the mathematical factorial of n (1 when n is 0 or 1, otherwise the
product of 2 through n). -/
theorem C1_factorial_correct (n : Int) (h0 : 0 ≤ n) (h1 : n ≤ 2000) :
    factorial n = Except.ok ((Nat.factorial n.toNat : Nat) : Int) :=
  factorial_eq_ok n h0

/-- Concrete instance of C1 at n = 6. -/
theorem C1_witness :
    0 ≤ (6 : Int) ∧ (6 : Int) ≤ 2000 ∧
      factorial 6 = Except.ok ((Nat.factorial (6 : Int).toNat : Nat) : Int) :=
  ⟨by decide, by decide, C1_factorial_correct 6 (by decide) (by decide)⟩

/-- Claim C2: for every payload whose `number` field is an integer n with
0 ≤ n ≤ 2000, the endpoint responds 200 with input n and the decimal
string of n factorial; in particular 5 yields "120", 0 yields "1" and 10
yields "3628800". -/
theorem C2_endpoint_success :
    (∀ n : Int, 0 ≤ n → n ≤ 2000 →
      (handle_request ⟨some (JsonValue.int n)⟩).1
        = ⟨200, Body.ok n (toString ((Nat.factorial n.toNat : Nat) : Int))⟩)
    ∧ (handle_request ⟨some (JsonValue.int 5)⟩).1 = ⟨200, Body.ok 5 "120"⟩
    ∧ (handle_request ⟨some (JsonValue.int 0)⟩).1 = ⟨200, Body.ok 0 "1"⟩
    ∧ (handle_request ⟨some (JsonValue.int 10)⟩).1 = ⟨200, Body.ok 10 "3628800"⟩ := by
  refine ⟨?_, by decide, by decide, by decide⟩
  intro n h0 h1
  rw [handle_request_int_ok n h0 h1]

/-- Concrete instance of C2 at n = 5. -/
theorem C2_witness :
    0 ≤ (5 : Int) ∧ (5 : Int) ≤ 2000 ∧
      (handle_request ⟨some (JsonValue.int 5)⟩).1
        = ⟨200, Body.ok 5 (toString ((Nat.factorial (5 : Int).toNat : Nat) : Int))⟩ :=
  ⟨by decide, by decide, C2_endpoint_success.1 5 (by decide) (by decide)⟩

/-- Claim C3: every payload in which `number` is missing, not an integer,
or out of [0, 2000] gets a 422 response with error "ValidationError" and
the rendered detail, without `factorial` being invoked. -/
theorem C3_validation_failure (p : Payload)
    (h : p.number = none ∨ p.number = some JsonValue.nonInt ∨
      ∃ n, p.number = some (JsonValue.int n) ∧ (n < 0 ∨ n > 2000)) :
    ∃ errs, validate p = Except.error errs ∧
      handle_request p = (⟨422, Body.err "ValidationError" (renderDetail errs)⟩, none) := by
  obtain ⟨num⟩ := p
  rcases h with h | h | ⟨n, h, hb⟩
  · cases h
    exact ⟨_, rfl, rfl⟩
  · cases h
    exact ⟨_, rfl, rfl⟩
  · cases h
    rcases hb with hb | hb
    · refine ⟨[⟨["body", "number"], "Input should be greater than or equal to 0"⟩], ?_, ?_⟩
      · simp [validate, hb]
      · simp [handle_request, validate, hb]
    · have hneg : ¬ n < 0 := by omega
      have hgt : n > MAX_N := by simpa [MAX_N] using hb
      refine ⟨[⟨["body", "number"], "Input should be less than or equal to " ++ toString MAX_N⟩], ?_, ?_⟩
      · simp [validate, hneg, hgt]
      · simp [handle_request, validate, hneg, hgt]

/-- Concrete instance of C3 at the payload with number -2. -/
theorem C3_witness :
    ∃ errs, validate ⟨some (JsonValue.int (-2))⟩ = Except.error errs ∧
      handle_request ⟨some (JsonValue.int (-2))⟩
        = (⟨422, Body.err "ValidationError" (renderDetail errs)⟩, none) :=
  C3_validation_failure ⟨some (JsonValue.int (-2))⟩
    (Or.inr (Or.inr ⟨-2, rfl, Or.inl (by decide)⟩))

/-- Claim C4: for every integer n < 0, `factorial` raises instead of
returning a value (modelled as `Except.error`). -/
theorem C4_negative_raises (n : Int) (h : n < 0) :
    factorial n = Except.error "Factorial is not available for negative numbers." := by
  simp [factorial, h]

/-- Concrete instance of C4 at n = -3. -/
theorem C4_witness :
    (-3 : Int) < 0 ∧
      factorial (-3) = Except.error "Factorial is not available for negative numbers." :=
  ⟨by decide, C4_negative_raises (-3) (by decide)⟩

/-- Claim C5: `factorial n = n * factorial (n - 1)` for 1 ≤ n ≤ 2000, and
`factorial 0 = factorial 1 = 1`. -/
theorem C5_recurrence :
    (∀ n : Int, 1 ≤ n → n ≤ 2000 →
      ∃ a b, factorial n = Except.ok a ∧ factorial (n - 1) = Except.ok b ∧ a = n * b)
    ∧ factorial 0 = Except.ok 1 ∧ factorial 1 = Except.ok 1 := by
  refine ⟨?_, by simp [factorial], by simp [factorial]⟩
  intro n h1 h2
  refine ⟨_, _, factorial_eq_ok n (by omega), factorial_eq_ok (n - 1) (by omega), ?_⟩
  have hs : n.toNat = (n - 1).toNat + 1 := by omega
  rw [hs, Nat.factorial_succ]
  push_cast
  have hc : (((n - 1).toNat : Nat) : Int) = n - 1 := by omega
  rw [hc]
  ring

/-- Concrete instance of C5 at n = 7. -/
theorem C5_witness :
    1 ≤ (7 : Int) ∧ (7 : Int) ≤ 2000 ∧
      ∃ a b, factorial 7 = Except.ok a ∧ factorial (7 - 1) = Except.ok b ∧ a = 7 * b :=
  ⟨by decide, by decide, C5_recurrence.1 7 (by decide) (by decide)⟩

/-- Claim C6: for every integer n with 0 ≤ n ≤ 2000, `factorial n`
returns a positive integer. -/
theorem C6_positive (n : Int) (h0 : 0 ≤ n) (h1 : n ≤ 2000) :
    ∃ v, factorial n = Except.ok v ∧ 0 < v := by
  refine ⟨_, factorial_eq_ok n h0, ?_⟩
  exact_mod_cast Nat.factorial_pos n.toNat

/-- Concrete instance of C6 at n = 4. -/
theorem C6_witness :
    0 ≤ (4 : Int) ∧ (4 : Int) ≤ 2000 ∧ ∃ v, factorial 4 = Except.ok v ∧ 0 < v :=
  ⟨by decide, by decide, C6_positive 4 (by decide) (by decide)⟩

/-- Claim C7: the handler only ever invokes `factorial` on a non-negative
argument, on which `factorial` succeeds, so its negative-input error is
never raised in handler-initiated calls. -/
theorem C7_guard_unreachable (p : Payload) (m : Int)
    (h : (handle_request p).2 = some m) :
    0 ≤ m ∧ ∃ v, factorial m = Except.ok v := by
  obtain ⟨num⟩ := p
  match num with
  | none => simp [handle_request, validate] at h
  | some JsonValue.nonInt => simp [handle_request, validate] at h
  | some (JsonValue.int n) =>
      by_cases hneg : n < 0
      · simp [handle_request, validate, hneg] at h
      · by_cases hgt : n > MAX_N
        · simp [handle_request, validate, hneg, hgt] at h
        · have h0 : 0 ≤ n := by omega
          have hok := factorial_eq_ok n h0
          have hsnd : (handle_request ⟨some (JsonValue.int n)⟩).2 = some n := by
            simp [handle_request, validate, compute_factorial, hneg, hgt, hok]
          rw [hsnd] at h
          cases h
          exact ⟨h0, _, hok⟩

/-- Concrete instance of C7 at the payload with number 3. -/
theorem C7_witness : 0 ≤ (3 : Int) ∧ ∃ v, factorial 3 = Except.ok v :=
  C7_guard_unreachable ⟨some (JsonValue.int 3)⟩ 3 (by decide)

/-- Claim C8: every request yields either a 200 or a 422 response; no
path produces a 400 BadRequest. -/
theorem C8_no_400 (p : Payload) :
    (handle_request p).1.status = 200 ∨ (handle_request p).1.status = 422 := by
  obtain ⟨num⟩ := p
  match num with
  | none => simp [handle_request, validate]
  | some JsonValue.nonInt => simp [handle_request, validate]
  | some (JsonValue.int n) =>
      by_cases hneg : n < 0
      · simp [handle_request, validate, hneg]
      · by_cases hgt : n > MAX_N
        · simp [handle_request, validate, hneg, hgt]
        · have h0 : 0 ≤ n := by omega
          have hok := factorial_eq_ok n h0
          simp [handle_request, validate, compute_factorial, hneg, hgt, hok]

/-- Claim C9: the endpoint is deterministic: within any sequence of
requests, two occurrences of the same payload receive identical
responses, each determined solely by that payload. -/
theorem C9_deterministic (ps : List Payload) (i j : Nat) (p : Payload)
    (hi : ps[i]? = some p) (hj : ps[j]? = some p) :
    (serve ps)[i]? = some (handle_request p).1 ∧ (serve ps)[i]? = (serve ps)[j]? := by
  have h1 : (serve ps)[i]? = some (handle_request p).1 := by
    simp [serve, List.getElem?_map, hi]
  have h2 : (serve ps)[j]? = some (handle_request p).1 := by
    simp [serve, List.getElem?_map, hj]
  exact ⟨h1, h1.trans h2.symm⟩

/-- Concrete instance of C9: positions 0 and 2 of a request sequence hold
the same payload and receive the same response. -/
theorem C9_witness :
    (serve [⟨some (JsonValue.int 5)⟩, ⟨none⟩, ⟨some (JsonValue.int 5)⟩])[0]?
      = some (handle_request ⟨some (JsonValue.int 5)⟩).1 ∧
    (serve [⟨some (JsonValue.int 5)⟩, ⟨none⟩, ⟨some (JsonValue.int 5)⟩])[0]?
      = (serve [⟨some (JsonValue.int 5)⟩, ⟨none⟩, ⟨some (JsonValue.int 5)⟩])[2]? :=
  C9_deterministic _ 0 2 ⟨some (JsonValue.int 5)⟩ (by decide) (by decide)

/-- Claim C10: every payload accepted by schema validation satisfies
0 ≤ number ≤ MAX_N, so the handler's defensive bounds re-check (the
`HTTPException` branch) never fires. -/
theorem C10_recheck_unreachable :
    (∀ p n, validate p = Except.ok n → 0 ≤ n ∧ n ≤ MAX_N)
    ∧ (∀ p, Body.isHttpErr (handle_request p).1.body = false) := by
  constructor
  · intro p n h
    obtain ⟨num⟩ := p
    match num with
    | none => simp [validate] at h
    | some JsonValue.nonInt => simp [validate] at h
    | some (JsonValue.int k) =>
        by_cases hneg : k < 0
        · simp [validate, hneg] at h
        · by_cases hgt : k > MAX_N
          · simp [validate, hneg, hgt] at h
          · simp [validate, hneg, hgt] at h
            cases h
            constructor <;> omega
  · intro p
    obtain ⟨num⟩ := p
    match num with
    | none => simp [handle_request, validate, Body.isHttpErr]
    | some JsonValue.nonInt => simp [handle_request, validate, Body.isHttpErr]
    | some (JsonValue.int n) =>
        by_cases hneg : n < 0
        · simp [handle_request, validate, hneg, Body.isHttpErr]
        · by_cases hgt : n > MAX_N
          · simp [handle_request, validate, hneg, hgt, Body.isHttpErr]
          · have h0 : 0 ≤ n := by omega
            have hok := factorial_eq_ok n h0
            simp [handle_request, validate, compute_factorial, hneg, hgt, hok, Body.isHttpErr]

/-- Concrete instance of C10 at the payload with number 5. -/
theorem C10_witness :
    (0 ≤ (5 : Int) ∧ (5 : Int) ≤ MAX_N) ∧
      Body.isHttpErr (handle_request ⟨some (JsonValue.int 5)⟩).1.body = false :=
  ⟨C10_recheck_unreachable.1 ⟨some (JsonValue.int 5)⟩ 5 rfl,
   C10_recheck_unreachable.2 ⟨some (JsonValue.int 5)⟩⟩

end FactorialApi
